import Mathlib

/-!
Verification of the slot-machine engine in `src/slot_machine.py`
(repository GAME-SLOT): a shallow embedding of the reel model, the
payout evaluator and the coin-balance bookkeeping, followed by theorems
settling the specification claims.

Symbols are modelled as strings, exactly the literals the Python source
uses.  Bets are natural numbers (the program only ever uses the fixed
bet 10); the coin balance is an integer so that non-negativity is a
provable property rather than an artifact of the encoding.
-/

namespace SlotMachine

/-- The three reel strips, copied symbol for symbol from
`SlotMachine.REEL_STRIPS` in the source. -/
def REEL_STRIPS : List (List String) :=
  [ ["７", "🔔", "🍊", "🍒", "⭐", "🍋", "🍒", "🔔", "🍒", "🍊", "🍒", "🍋"],
    ["🍒", "🍋", "７", "🍒", "🔔", "🍊", "🍒", "⭐", "🍋", "🍒", "🔔", "🍊"],
    ["⭐", "🍒", "🍋", "🔔", "🍊", "🍒", "🍋", "７", "🍒", "🔔", "🍊", "🍒"] ]

/-- The distinct symbols occurring across the strips, as computed by
`SYMBOLS = sorted(list(set(...)))` in the source.  Python additionally
sorts the list; sorting only reorders it, and the claims about the
alphabet concern membership and cardinality, which `dedup` preserves. -/
def SYMBOLS : List String := (REEL_STRIPS.flatten).dedup

/-- The payout table `SlotMachine.PAYOUTS`, an association list exactly
as in the source. -/
def PAYOUTS : List (String × Nat) :=
  [("７", 100), ("⭐", 50), ("🔔", 20), ("🍋", 10), ("🍊", 10), ("🍒", 10)]

/-- Python `self.PAYOUTS.get(symbol, 0)`: table lookup with default 0. -/
def payoutsGet (symbol : String) : Nat := (PAYOUTS.lookup symbol).getD 0

/-- A line is an ordered triple of symbols (one per reel column); the
Python code receives it as a length-3 list and reads indices 0, 1, 2. -/
def Line : Type := String × String × String

/-- Column 0 of a line. -/
def Line.c0 (l : Line) : String := l.1

/-- Column 1 of a line. -/
def Line.c1 (l : Line) : String := l.2.1

/-- Column 2 of a line. -/
def Line.c2 (l : Line) : String := l.2.2

/-- `SlotMachine.get_payout_info_for_line(line, bet)`: three-of-a-kind
first (multiplier from the table, default 0), then the positional
two-cherry rule on columns 0 and 1 paying bet × 5, else no win. -/
def get_payout_info_for_line (line : Line) (bet : Nat) : Nat × Option String :=
  if line.c0 = line.c1 ∧ line.c1 = line.c2 then
    (bet * payoutsGet line.c0, some (line.c0 ++ " 3つ揃い"))
  else if line.c0 = "🍒" ∧ line.c1 = "🍒" then
    (bet * 5, some "左からチェリー2つ")
  else
    (0, none)

/-- The payout-accumulation loop of `SlotGUI.finish_spin`: fold over the
enumerated lines, adding each positive payout to the total and recording
the winning row index, exactly as the Python `for i, line in
enumerate(lines_to_check)` loop does. -/
def evaluate_lines (lines : List Line) (bet : Nat) : Nat × List Nat :=
  (lines.enum).foldl
    (fun acc il =>
      let p := get_payout_info_for_line il.2 bet
      if 0 < p.1 then (acc.1 + p.1, acc.2 ++ [il.1]) else acc)
    (0, [])

/-- The strip for a reel column, `self.reel_strips[col]` in the source. -/
def stripAt (s : Nat) : List String := REEL_STRIPS.getD s []

/-- The visible 3-symbol window of strip `s` at stop index `i`: the
Python code computes `strip[(final_index + row - 1) % len(strip)]` for
rows 0, 1, 2 (`SlotGUI.stop_reel` and `SlotGUI.finish_spin`).  The Lean
`%` on `Int` is Euclidean remainder, which agrees with Python `%` for
the positive divisor 12.  `getD` returns the padding value only on an
out-of-range index, which the window theorem shows never happens. -/
def windowAt (s : Nat) (i : Int) : List String :=
  let strip := stripAt s
  let L : Int := (strip.length : Int)
  ([(-1 : Int), 0, 1]).map (fun off => strip.getD ((i + off) % L).toNat "")

/-- `SlotMachine.get_final_indices`: one draw per strip via
`random.randint(0, len(strip) - 1)`.  The randomness source is passed in
as the function `randint`; Python guarantees `randint(a, b)` lies in
`[a, b]`, which the bounds theorem takes as a hypothesis. -/
def get_final_indices (randint : Nat → Nat → Nat) : List Nat :=
  REEL_STRIPS.map (fun strip => randint 0 (strip.length - 1))

/-- The balance-affecting part of `SlotGUI.start_spin`: a spin with
`coins < bet` is refused (the method returns, changing nothing);
otherwise the bet is debited before the stop indices are drawn. -/
def start_spin (bet : Nat) (coins : Int) : Option Int :=
  if coins < (bet : Int) then none else some (coins - bet)

/-- The balance-affecting part of `SlotGUI.finish_spin`: after the lines
are evaluated the total payout is credited. -/
def finish_spin (bet : Nat) (lines : List Line) (coins : Int) : Int :=
  coins + ((evaluate_lines lines bet).1 : Int)

/-- One whole spin as the balance sees it: refusal leaves the balance
unchanged; an allowed spin debits the bet, the draw then fixes the grid
`lines`, and the payout is credited. -/
def spin (bet : Nat) (lines : List Line) (coins : Int) : Int :=
  match start_spin bet coins with
  | none => coins
  | some c => finish_spin bet lines c

/-- A sequence of spins with a fixed bet, each spin's drawn grid given
by the corresponding list entry. -/
def runSpins (bet : Nat) (grids : List (List Line)) (B0 : Int) : Int :=
  grids.foldl (fun c g => spin bet g c) B0

/-- Modelled from the spec: the single-line evaluator
(`evaluateSingleLine`) of the repository's earlier single-line scoring
mode is not present under `src/` (the shipped code keeps only the
3-line positional evaluator), so it is taken from the spec's words:
three-of-a-kind first at the table multiplier, else bet × 2 when the
line contains cherry exactly twice at any positions, else no win. -/
def evaluateSingleLine (line : Line) (bet : Nat) : Nat × Option String :=
  if line.c0 = line.c1 ∧ line.c1 = line.c2 then
    (bet * payoutsGet line.c0, some (line.c0 ++ " three-of-a-kind"))
  else if ([line.c0, line.c1, line.c2].count "🍒") = 2 then
    (bet * 2, some "two cherries")
  else
    (0, none)

/-- Length of each strip a reel column uses. -/
lemma stripAt_length (s : Nat) (hs : s < 3) : (stripAt s).length = 12 := by
  interval_cases s <;> rfl

/-- An allowed spin cannot push the balance below zero. -/
lemma spin_nonneg (bet : Nat) (g : List Line) (c : Int) (h : 0 ≤ c) :
    0 ≤ spin bet g c := by
  unfold spin start_spin finish_spin
  by_cases hb : c < (bet : Int)
  · simpa [hb] using h
  · have hp : (0 : Int) ≤ ((evaluate_lines g bet).1 : Int) := Int.ofNat_nonneg _
    simp only [hb, if_neg, ite_false]
    omega

/-- Non-negativity of the balance is preserved over any spin sequence. -/
lemma runSpins_nonneg (bet : Nat) (grids : List (List Line)) (B0 : Int)
    (h : 0 ≤ B0) : 0 ≤ runSpins bet grids B0 := by
  induction grids generalizing B0 with
  | nil => simpa [runSpins] using h
  | cons g gs ih =>
      have hstep : 0 ≤ spin bet g B0 := spin_nonneg bet g B0 h
      simpa [runSpins, List.foldl] using ih (spin bet g B0) hstep

end SlotMachine

namespace SlotMachine

/-- C1: for a line that is not three-of-a-kind, the evaluator pays
bet × 5 with the leftmost-cherries reason exactly when columns 0 and 1
are both cherry (column 2 irrelevant); in particular the line
lemon-cherry-cherry pays 0 with no reason. -/
theorem positional_two_cherry_rule (l : Line) (bet : Nat)
    (h : ¬ (l.c0 = l.c1 ∧ l.c1 = l.c2)) :
    (get_payout_info_for_line l bet = (bet * 5, some "左からチェリー2つ")
      ↔ (l.c0 = "🍒" ∧ l.c1 = "🍒"))
    ∧ get_payout_info_for_line ("🍋", "🍒", "🍒") bet = (0, none) := by
  constructor
  · constructor
    · intro he
      by_cases hc : l.c0 = "🍒" ∧ l.c1 = "🍒"
      · exact hc
      · simp [get_payout_info_for_line, h, hc] at he
    · intro hc
      have hne : ¬ ("🍒" = l.c2) := fun h2 =>
        h ⟨hc.1.trans hc.2.symm, hc.2.trans h2⟩
      simp [get_payout_info_for_line, h, hc, hne]
  · have hne : ¬ (Line.c0 ("🍋", "🍒", "🍒") = Line.c1 ("🍋", "🍒", "🍒")
        ∧ Line.c1 ("🍋", "🍒", "🍒") = Line.c2 ("🍋", "🍒", "🍒")) := by decide
    have hnc : ¬ (Line.c0 ("🍋", "🍒", "🍒") = "🍒"
        ∧ Line.c1 ("🍋", "🍒", "🍒") = "🍒") := by decide
    simp [get_payout_info_for_line, hne, hnc]

/-- Witness for C1 at the line cherry-cherry-lemon and bet 10. -/
theorem positional_two_cherry_rule_witness :
    (get_payout_info_for_line ("🍒", "🍒", "🍋") 10 = (10 * 5, some "左からチェリー2つ")
      ↔ (Line.c0 ("🍒", "🍒", "🍋") = "🍒" ∧ Line.c1 ("🍒", "🍒", "🍋") = "🍒"))
    ∧ get_payout_info_for_line ("🍋", "🍒", "🍒") 10 = (0, none) :=
  positional_two_cherry_rule ("🍒", "🍒", "🍋") 10 (by decide)

/-- C2: every line X-X-X is scored as three-of-a-kind at the table
multiplier with the three-of-a-kind reason; an all-cherry line pays
bet × 10 and is never scored as the bet × 5 two-cherry bonus. -/
theorem three_of_a_kind_priority (X : String) (bet : Nat) :
    get_payout_info_for_line (X, X, X) bet
        = (bet * payoutsGet X, some (X ++ " 3つ揃い"))
    ∧ get_payout_info_for_line ("🍒", "🍒", "🍒") bet = (bet * 10, some "🍒 3つ揃い")
    ∧ get_payout_info_for_line ("🍒", "🍒", "🍒") bet ≠ (bet * 5, some "左からチェリー2つ") := by
  have hgen : ∀ Y : String, get_payout_info_for_line (Y, Y, Y) bet
      = (bet * payoutsGet Y, some (Y ++ " 3つ揃い")) := by
    intro Y
    simp [get_payout_info_for_line, Line.c0, Line.c1, Line.c2]
  have hch : payoutsGet "🍒" = 10 := by decide
  have hst : ("🍒" ++ " 3つ揃い") = "🍒 3つ揃い" := by decide
  refine ⟨hgen X, ?_, ?_⟩
  · rw [hgen "🍒", hch, hst]
  · rw [hgen "🍒", hch, hst]
    simp

/-- C3: in single-line mode (spec-modelled, the mode is absent from
src/), a line that is not three-of-a-kind and contains cherry exactly
twice at any positions pays bet × 2 with the two-cherries reason; both
cherry-cherry-lemon and lemon-cherry-cherry qualify. -/
theorem single_line_two_cherry_rule (l : Line) (bet : Nat)
    (h : ¬ (l.c0 = l.c1 ∧ l.c1 = l.c2))
    (hc : ([l.c0, l.c1, l.c2].count "🍒") = 2) :
    evaluateSingleLine l bet = (bet * 2, some "two cherries")
    ∧ evaluateSingleLine ("🍒", "🍒", "🍋") bet = (bet * 2, some "two cherries")
    ∧ evaluateSingleLine ("🍋", "🍒", "🍒") bet = (bet * 2, some "two cherries") := by
  refine ⟨?_, ?_, ?_⟩
  · simp [evaluateSingleLine, h, hc]
  · have h1 : ¬ (Line.c0 ("🍒", "🍒", "🍋") = Line.c1 ("🍒", "🍒", "🍋")
        ∧ Line.c1 ("🍒", "🍒", "🍋") = Line.c2 ("🍒", "🍒", "🍋")) := by decide
    have h2 : ([Line.c0 ("🍒", "🍒", "🍋"), Line.c1 ("🍒", "🍒", "🍋"),
        Line.c2 ("🍒", "🍒", "🍋")].count "🍒") = 2 := by decide
    simp [evaluateSingleLine, h1, h2]
  · have h1 : ¬ (Line.c0 ("🍋", "🍒", "🍒") = Line.c1 ("🍋", "🍒", "🍒")
        ∧ Line.c1 ("🍋", "🍒", "🍒") = Line.c2 ("🍋", "🍒", "🍒")) := by decide
    have h2 : ([Line.c0 ("🍋", "🍒", "🍒"), Line.c1 ("🍋", "🍒", "🍒"),
        Line.c2 ("🍋", "🍒", "🍒")].count "🍒") = 2 := by decide
    simp [evaluateSingleLine, h1, h2]

/-- Witness for C3 at the line cherry-cherry-lemon and bet 10. -/
theorem single_line_two_cherry_rule_witness :
    evaluateSingleLine ("🍒", "🍒", "🍋") 10 = (10 * 2, some "two cherries")
    ∧ evaluateSingleLine ("🍒", "🍒", "🍋") 10 = (10 * 2, some "two cherries")
    ∧ evaluateSingleLine ("🍋", "🍒", "🍒") 10 = (10 * 2, some "two cherries") :=
  single_line_two_cherry_rule ("🍒", "🍒", "🍋") 10 (by decide) (by decide)

/-- C4: for any 3×3 grid the multi-line total is the sum of the three
independently evaluated row payouts, and the winning-row index list is
exactly the rows with strictly positive payout in increasing order. -/
theorem multi_line_sum_and_winning_rows (l0 l1 l2 : Line) (bet : Nat) :
    (evaluate_lines [l0, l1, l2] bet).1
        = (get_payout_info_for_line l0 bet).1
          + (get_payout_info_for_line l1 bet).1
          + (get_payout_info_for_line l2 bet).1
    ∧ (evaluate_lines [l0, l1, l2] bet).2
        = (if 0 < (get_payout_info_for_line l0 bet).1 then [0] else [])
          ++ (if 0 < (get_payout_info_for_line l1 bet).1 then [1] else [])
          ++ (if 0 < (get_payout_info_for_line l2 bet).1 then [2] else []) := by
  by_cases h0 : 0 < (get_payout_info_for_line l0 bet).1 <;>
  by_cases h1 : 0 < (get_payout_info_for_line l1 bet).1 <;>
  by_cases h2 : 0 < (get_payout_info_for_line l2 bet).1 <;>
    simp_all [evaluate_lines, List.enum, List.enumFrom, Nat.not_lt,
      Nat.le_zero]

/-- C5: for each strip the visible window at stop index `i` is the
symbols at offsets −1, 0, +1 modulo the strip length 12, with correct
wraparound, and every index the code computes is in range for every
integer stop index (so the lookup never falls back to the default and
the Python indexing never raises). -/
theorem window_correctness (s : Nat) (hs : s < 3) :
    (∀ i : Int, ∀ off ∈ ([(-1 : Int), 0, 1]),
        0 ≤ (i + off) % 12 ∧ ((i + off) % 12).toNat < (stripAt s).length)
    ∧ (∀ i : Nat, i < 12 →
        windowAt s i
          = [ (stripAt s).getD ((((i : Int) - 1) % 12).toNat) "",
              (stripAt s).getD i "",
              (stripAt s).getD ((((i : Int) + 1) % 12).toNat) "" ]) := by
  have hlen : (stripAt s).length = 12 := stripAt_length s hs
  constructor
  · intro i off _
    have h0 : 0 ≤ (i + off) % 12 := Int.emod_nonneg _ (by norm_num)
    have h1 : (i + off) % 12 < 12 := Int.emod_lt_of_pos _ (by norm_num)
    refine ⟨h0, ?_⟩
    rw [hlen]
    omega
  · intro i hi
    have hc : (((i : Int) + 0) % 12).toNat = i := by omega
    have hl : ((i : Int) + -1) = ((i : Int) - 1) := by ring
    simp only [windowAt, List.map, hlen, Nat.cast_ofNat, hl, hc]

/-- Witness for C5 at strip 0 and stop index 0 (the window wraps to the
last symbol of the strip on the row above). -/
theorem window_correctness_witness :
    windowAt 0 0
      = [ (stripAt 0).getD (((((0 : Nat) : Int) - 1) % 12).toNat) "",
          (stripAt 0).getD 0 "",
          (stripAt 0).getD (((((0 : Nat) : Int) + 1) % 12).toNat) "" ] :=
  (window_correctness 0 (by decide)).2 0 (by decide)

/-- C6: a spin attempted with balance below the bet is refused as a
normal result that leaves the balance unchanged, so from a non-negative
start the balance never goes negative over any spin sequence; an
allowed spin debits the bet first and credits the evaluated payout. -/
theorem balance_invariant (bet : Nat) (B0 : Int) (h : 0 ≤ B0)
    (grids : List (List Line)) :
    0 ≤ runSpins bet grids B0
    ∧ (∀ (coins : Int) (g : List Line), coins < (bet : Int) →
        spin bet g coins = coins)
    ∧ (∀ (coins : Int) (g : List Line), (bet : Int) ≤ coins →
        spin bet g coins
          = (coins - bet) + ((evaluate_lines g bet).1 : Int)) := by
  refine ⟨runSpins_nonneg bet grids B0 h, ?_, ?_⟩
  · intro coins g hlt
    simp [spin, start_spin, hlt]
  · intro coins g hge
    have hlt : ¬ coins < (bet : Int) := not_lt.mpr hge
    simp [spin, start_spin, finish_spin, hlt]

/-- Witness for C6: starting balance 100, bet 10, one concrete spin. -/
theorem balance_invariant_witness :
    0 ≤ runSpins 10 [[("🍒", "🍒", "🍋"), ("🍋", "🍒", "🍒"), ("⭐", "⭐", "⭐")]] 100 :=
  (balance_invariant 10 100 (by decide)
    [[("🍒", "🍒", "🍋"), ("🍋", "🍒", "🍒"), ("⭐", "⭐", "⭐")]]).1

/-- C7: the line payout is always bet times a natural-number
multiplier (hence a non-negative multiple of the bet), and a symbol
absent from the payout table yields multiplier 0 rather than an error. -/
theorem payout_multiple_of_bet (l : Line) (bet : Nat) (X : String)
    (hX : PAYOUTS.lookup X = none) :
    (∃ k : Nat, (get_payout_info_for_line l bet).1 = bet * k)
    ∧ payoutsGet X = 0
    ∧ (get_payout_info_for_line (X, X, X) bet).1 = 0 := by
  have hpay : payoutsGet X = 0 := by simp [payoutsGet, hX]
  refine ⟨?_, hpay, ?_⟩
  · unfold get_payout_info_for_line
    split
    · exact ⟨payoutsGet l.c0, rfl⟩
    · split
      · exact ⟨5, rfl⟩
      · exact ⟨0, by simp⟩
  · simp [get_payout_info_for_line, Line.c0, Line.c1, Line.c2, hpay]

/-- Witness for C7 at the line lemon-cherry-cherry, bet 10, and the
absent symbol Q. -/
theorem payout_multiple_of_bet_witness :
    (∃ k : Nat, (get_payout_info_for_line ("🍋", "🍒", "🍒") 10).1 = 10 * k)
    ∧ payoutsGet "Q" = 0
    ∧ (get_payout_info_for_line ("Q", "Q", "Q") 10).1 = 0 :=
  payout_multiple_of_bet ("🍋", "🍒", "🍒") 10 "Q" (by decide)

/-- C8: the stop-drawing operation returns one index per strip (three in
all), each strictly below the strip length 12, for every randomness
source satisfying the randint contract. -/
theorem draw_stops_bounds (randint : Nat → Nat → Nat)
    (h : ∀ a b, randint a b ≤ b) :
    (get_final_indices randint).length = 3
    ∧ ∀ x ∈ get_final_indices randint, x < 12 := by
  constructor
  · rfl
  · intro x hx
    simp [get_final_indices, REEL_STRIPS] at hx
    rcases hx with rfl | rfl | rfl
    all_goals exact Nat.lt_of_le_of_lt (h 0 11) (by decide)

/-- Witness for C8 with the extreme randomness source that always
returns the upper bound. -/
theorem draw_stops_bounds_witness :
    (get_final_indices (fun _ b => b)).length = 3
    ∧ ∀ x ∈ get_final_indices (fun _ b => b), x < 12 :=
  draw_stops_bounds (fun _ b => b) (fun _ b => Nat.le_refl b)

/-- C9 counterexample: the distinct-symbol alphabet of the shipped
strips does not have 7 kinds (it has 6), so the claim as stated fails. -/
theorem symbol_alphabet_not_seven : ¬ (SYMBOLS.length = 7) := by decide

/-- C9 amended: the alphabet has exactly 6 kinds — seven, star, bell,
lemon, orange, cherry — and there are three strips of length 12 each. -/
theorem symbol_alphabet_six_and_strip_lengths :
    SYMBOLS.length = 6
    ∧ "７" ∈ SYMBOLS ∧ "⭐" ∈ SYMBOLS ∧ "🔔" ∈ SYMBOLS
    ∧ "🍋" ∈ SYMBOLS ∧ "🍊" ∈ SYMBOLS ∧ "🍒" ∈ SYMBOLS
    ∧ REEL_STRIPS.length = 3
    ∧ REEL_STRIPS.map List.length = [12, 12, 12] := by decide

/-- C10: a three-of-a-kind of a symbol absent from the payout table
returns payout 0 together with a non-None three-of-a-kind reason, so a
zero payout does not imply an absent reason at the evaluator interface. -/
theorem unknown_symbol_three_of_a_kind (X : String) (bet : Nat)
    (hX : PAYOUTS.lookup X = none) :
    get_payout_info_for_line (X, X, X) bet = (0, some (X ++ " 3つ揃い")) := by
  have hpay : payoutsGet X = 0 := by simp [payoutsGet, hX]
  simp [get_payout_info_for_line, Line.c0, Line.c1, Line.c2, hpay]

/-- Witness for C10 at the absent symbol Q and bet 7. -/
theorem unknown_symbol_three_of_a_kind_witness :
    get_payout_info_for_line ("Q", "Q", "Q") 7 = (0, some ("Q" ++ " 3つ揃い")) :=
  unknown_symbol_three_of_a_kind "Q" 7 (by decide)

end SlotMachine
